import Mathlib

/-!
Verification of the Pattern-Check front-end (a React single-page
application for tracking garment pattern-making orders).  The
definitions below are a shallow embedding of the client-side logic:
the Order / Pattern / User records mirror the JSON objects the pages
render, and each definition is translated from a concrete function or
JSX expression of the sources under src/frontend/src.
-/

/-- JSON order object as rendered by Dashboard.jsx, AdminPanel.jsx
(Orders component) and the OrderDetail component.  The three stage
status and date fields are optional strings; `created_at` is an epoch
timestamp in milliseconds. -/
structure Order where
  id : String
  order_number : String
  google_sheet_link : String
  created_at : Int
  initial_pattern_status : Option String
  initial_pattern_date : Option String
  second_pattern_status : Option String
  second_pattern_date : Option String
  approved_pattern_status : Option String
  approved_pattern_date : Option String
deriving DecidableEq, Repr

/-- JSON pattern object returned by the patterns endpoint and bucketed
by OrderDetail.fetchOrderData. -/
structure Pattern where
  id : String
  stage : String
  slot : Nat
  filename : String
deriving DecidableEq, Repr

/-- Authenticated user as held in AuthContext. -/
structure User where
  id : String
  name : String
  role : String
  is_approved : Bool
deriving DecidableEq, Repr

/-- JavaScript truthiness of an optional string field: absent
(undefined/null) and the empty string are falsy, every other string is
truthy. -/
def truthyStr : Option String → Bool
  | none => false
  | some s => !s.isEmpty

/-- Optional chaining user?.role : the role of the logged-in user, or
absent when no user is present. -/
def userRole : Option User → Option String
  | none => none
  | some u => some u.role

/-- Optional chaining user?.is_approved, coerced to a boolean the way
the JSX conditions do (absent counts as false). -/
def userIsApproved : Option User → Bool
  | none => false
  | some u => u.is_approved

/-- A stage field is well formed when, if present, it is a nonempty
string (the data model only ever produces `approved`, `rejected`, a
date string, or absence). -/
def wfField (x : Option String) : Bool :=
  x ≠ some ""

/-- All six stage fields of an order are well formed. -/
def wfOrder (o : Order) : Bool :=
  wfField o.initial_pattern_status && wfField o.initial_pattern_date &&
  wfField o.second_pattern_status && wfField o.second_pattern_date &&
  wfField o.approved_pattern_status && wfField o.approved_pattern_date

/-- For a well-formed field, truthiness coincides with presence. -/
theorem truthyStr_eq_isSome_of_wf (x : Option String) (h : wfField x = true) :
    truthyStr x = x.isSome := by
  cases x with
  | none => rfl
  | some s =>
    simp only [truthyStr, Option.isSome]
    simp only [wfField, decide_eq_true_eq] at h
    have hs : s ≠ "" := fun he => h (by rw [he])
    have he : s.isEmpty = false := by
      rw [Bool.eq_false_iff]
      intro hcon
      exact hs ((String.isEmpty_iff s).mp hcon)
    simp [he]

/- ### OrderDetail: second-stage approval gate (index.js, OrderDetail) -/

/-- The `disabled` expression of the second-stage Approve button:
`order?.initial_pattern_status !== rejected`. -/
def approveSecondDisabled (o : Option Order) : Bool :=
  !((o.map Order.initial_pattern_status).join = some "rejected")

/-- The `disabled` expression of the second-stage Reject button, which
is textually the same condition as the Approve button. -/
def rejectSecondDisabled (o : Option Order) : Bool :=
  !((o.map Order.initial_pattern_status).join = some "rejected")

/-- C1: for every loaded order, both second-stage buttons are enabled
exactly when `initial_pattern_status` is the string `rejected`; any
other value (absence, `approved`, anything else) leaves both buttons
disabled. -/
theorem second_stage_gate (o : Order) :
    (approveSecondDisabled (some o) = false ∧
     rejectSecondDisabled (some o) = false) ↔
    o.initial_pattern_status = some "rejected" := by
  simp [approveSecondDisabled, rejectSecondDisabled, Option.map, Option.join]

/- ### OrderDetail: bucketing of fetched patterns by stage -/

/-- The three stage buckets held in the `patterns` state of
OrderDetail. -/
structure PatternBuckets where
  initial : List Pattern
  second : List Pattern
  approved : List Pattern
deriving DecidableEq, Repr

/-- fetchOrderData: the fetched pattern list is split by the `stage`
field with three filters. -/
def patternsByStage (ps : List Pattern) : PatternBuckets :=
  { initial := ps.filter (fun p => p.stage = "initial")
    second := ps.filter (fun p => p.stage = "second")
    approved := ps.filter (fun p => p.stage = "approved") }

/-- C7: every fetched pattern lands in the bucket named by its stage
field and in no other; a pattern with any other stage value lands in
no bucket.  The three membership equivalences fully characterise the
partition. -/
theorem patterns_partitioned (ps : List Pattern) (p : Pattern) :
    (p ∈ (patternsByStage ps).initial ↔ p ∈ ps ∧ p.stage = "initial") ∧
    (p ∈ (patternsByStage ps).second ↔ p ∈ ps ∧ p.stage = "second") ∧
    (p ∈ (patternsByStage ps).approved ↔ p ∈ ps ∧ p.stage = "approved") := by
  refine ⟨?_, ?_, ?_⟩ <;>
    simp [patternsByStage, List.mem_filter]

/- ### OrderDetail: role-based permission predicates (index.js, OrderDetail) -/

/-- canUploadInitial : upload controls of the initial stage. -/
def canUploadInitial (u : Option User) : Bool :=
  userRole u = some "admin" || userRole u = some "pattern_maker"

/-- canUploadSecondApproved : upload controls of the second and final
approved stages. -/
def canUploadSecondApproved (u : Option User) : Bool :=
  userRole u = some "admin" || userRole u = some "pattern_checker"

/-- canApprove : the approve / reject action rows. -/
def canApprove (u : Option User) : Bool :=
  userRole u = some "admin" || userRole u = some "pattern_checker"

/-- canUploadChatImage : attaching an image to a chat message. -/
def canUploadChatImage (u : Option User) : Bool :=
  userRole u = some "admin" || userRole u = some "pattern_maker" ||
  userRole u = some "pattern_checker"

/-- isAdmin : deletion of patterns and of the whole order. -/
def isAdmin (u : Option User) : Bool :=
  userRole u = some "admin"

/-- renderPatternSlots: the upload input and button are rendered in a
slot only when no pattern occupies it and the stage allows the user to
upload. -/
def uploadControlRendered (canUpload patternPresent : Bool) : Bool :=
  !patternPresent && canUpload

/-- renderPatternSlots: the per-pattern Delete button is rendered only
for an occupied slot and an admin user. -/
def deletePatternButtonRendered (u : Option User) (patternPresent : Bool) : Bool :=
  patternPresent && isAdmin u

/-- Header: the Delete Order button is rendered only for an admin. -/
def deleteOrderButtonRendered (u : Option User) : Bool :=
  isAdmin u

/-- Approve / Reject rows of a stage are rendered only when the user
may approve and the stage has no status yet. -/
def approvalButtonsRendered (u : Option User) (stageStatus : Option String) : Bool :=
  canApprove u && !truthyStr stageStatus

/-- C4: the permission gates of the order view, characterised.  Initial
uploads need admin or pattern_maker; second and approved uploads and
the approve / reject actions need admin or pattern_checker; deletion
of a pattern or the order needs admin; and a user whose role is none
of these three (general_user included) gets no mutating control at
all. -/
theorem role_gates (u : Option User) :
    (canUploadInitial u = true ↔
      userRole u = some "admin" ∨ userRole u = some "pattern_maker") ∧
    (canUploadSecondApproved u = true ↔
      userRole u = some "admin" ∨ userRole u = some "pattern_checker") ∧
    (canApprove u = true ↔
      userRole u = some "admin" ∨ userRole u = some "pattern_checker") ∧
    (∀ present : Bool, deletePatternButtonRendered u present = true ↔
      present = true ∧ userRole u = some "admin") ∧
    (deleteOrderButtonRendered u = true ↔ userRole u = some "admin") ∧
    (∀ st : Option String, ∀ present : Bool,
      (uploadControlRendered (canUploadInitial u) present ||
       uploadControlRendered (canUploadSecondApproved u) present ||
       approvalButtonsRendered u st ||
       deletePatternButtonRendered u present ||
       deleteOrderButtonRendered u) = true →
      userRole u = some "admin" ∨ userRole u = some "pattern_maker" ∨
      userRole u = some "pattern_checker") := by
  refine ⟨?_, ?_, ?_, ?_, ?_, ?_⟩
  · simp [canUploadInitial]
  · simp [canUploadSecondApproved]
  · simp [canApprove]
  · intro present
    simp [deletePatternButtonRendered, isAdmin, and_comm]
  · simp [deleteOrderButtonRendered, isAdmin]
  · intro st present h
    simp only [uploadControlRendered, approvalButtonsRendered,
      deletePatternButtonRendered, deleteOrderButtonRendered,
      canUploadInitial, canUploadSecondApproved, canApprove, isAdmin,
      Bool.or_eq_true, Bool.and_eq_true, decide_eq_true_eq] at h
    rcases h with ((((⟨-, h⟩ | ⟨-, h⟩) | ⟨h, -⟩) | ⟨-, h⟩) | h) <;> tauto

/-- Witness for the role gate theorem: a concrete admin user renders
a mutating control, so the gate theorem puts the role among the three
privileged ones. -/
theorem role_gates_check :
    userRole (some ⟨"u0", "Admin", "admin", true⟩) = some "admin" ∨
    userRole (some ⟨"u0", "Admin", "admin", true⟩) = some "pattern_maker" ∨
    userRole (some ⟨"u0", "Admin", "admin", true⟩) = some "pattern_checker" :=
  (role_gates (some ⟨"u0", "Admin", "admin", true⟩)).2.2.2.2.2 none true (by decide)

/- ### Orders page (AdminPanel.jsx, Orders component): client-side filtering -/

/-- Milliseconds in a day; the date cutoff subtracts whole days from
the current time. -/
def msPerDay : Int := 86400000

/-- applyFilters of the Orders component: first the date cutoff keeps
orders created on or after now minus the selected number of days, then
the status tab narrows by stage statuses; `all` (and any unknown tab
value) applies no status narrowing. -/
def applyFilters (now : Int) (dateFilter : Nat) (statusFilter : String)
    (allOrders : List Order) : List Order :=
  let cutoffDate : Int := now - (dateFilter : Int) * msPerDay
  let filtered := allOrders.filter (fun o => decide (cutoffDate ≤ o.created_at))
  if statusFilter = "approved" then
    filtered.filter (fun o => o.approved_pattern_status = some "approved")
  else if statusFilter = "rejected" then
    filtered.filter (fun o =>
      o.initial_pattern_status = some "rejected" ||
      o.second_pattern_status = some "rejected" ||
      o.approved_pattern_status = some "rejected")
  else if statusFilter = "no_action" then
    filtered.filter (fun o =>
      !truthyStr o.initial_pattern_status &&
      !truthyStr o.second_pattern_status &&
      !truthyStr o.approved_pattern_status)
  else
    filtered

/-- Every order in a list has well-formed stage fields. -/
def wfOrders (l : List Order) : Bool :=
  l.all wfOrder

/-- For a well-formed field, JS falsiness coincides with absence. -/
theorem not_truthy_iff_none (x : Option String) (h : wfField x = true) :
    ((!truthyStr x) = true) ↔ x = none := by
  rw [truthyStr_eq_isSome_of_wf x h]
  cases x <;> simp

/-- C3: the Orders list filters are exactly as advertised.  Every tab
result keeps the date cutoff (created_at on or after now minus the
selected days); `approved` keeps exactly the orders whose final status
is approved; `rejected` keeps exactly those with a rejection in some
stage; `no_action` keeps exactly those with all three statuses absent;
`all` adds no status condition; and any filter result is a subset of
the fetched list. -/
theorem orders_filtering (now : Int) (days : Nat) (orders : List Order)
    (hwf : wfOrders orders = true) :
    (∀ o, o ∈ applyFilters now days "all" orders ↔
        o ∈ orders ∧ now - (days : Int) * msPerDay ≤ o.created_at) ∧
    (∀ o, o ∈ applyFilters now days "approved" orders ↔
        o ∈ orders ∧ now - (days : Int) * msPerDay ≤ o.created_at ∧
        o.approved_pattern_status = some "approved") ∧
    (∀ o, o ∈ applyFilters now days "rejected" orders ↔
        o ∈ orders ∧ now - (days : Int) * msPerDay ≤ o.created_at ∧
        (o.initial_pattern_status = some "rejected" ∨
         o.second_pattern_status = some "rejected" ∨
         o.approved_pattern_status = some "rejected")) ∧
    (∀ o, o ∈ applyFilters now days "no_action" orders ↔
        o ∈ orders ∧ now - (days : Int) * msPerDay ≤ o.created_at ∧
        o.initial_pattern_status = none ∧
        o.second_pattern_status = none ∧
        o.approved_pattern_status = none) ∧
    (∀ f : String, ∀ o, o ∈ applyFilters now days f orders → o ∈ orders) := by
  refine ⟨?_, ?_, ?_, ?_, ?_⟩
  · intro o
    simp [applyFilters, List.mem_filter]
  · intro o
    simp only [applyFilters, List.mem_filter]
    simp
    intro _
    tauto
  · intro o
    simp only [applyFilters, List.mem_filter]
    simp
    intro _
    tauto
  · intro o
    have heq : applyFilters now days "no_action" orders =
        (orders.filter
            (fun o => decide (now - (days : Int) * msPerDay ≤ o.created_at))).filter
          (fun o =>
            !truthyStr o.initial_pattern_status &&
            !truthyStr o.second_pattern_status &&
            !truthyStr o.approved_pattern_status) := by
      simp [applyFilters]
    rw [heq, List.mem_filter, List.mem_filter]
    constructor
    · rintro ⟨⟨ho, hd⟩, hs⟩
      have hwfo : wfOrder o = true := List.all_eq_true.mp hwf o ho
      simp only [wfOrder, Bool.and_eq_true] at hwfo
      simp only [Bool.and_eq_true] at hs
      exact ⟨ho, of_decide_eq_true hd,
        (not_truthy_iff_none _ hwfo.1.1.1.1.1).mp hs.1.1,
        (not_truthy_iff_none _ hwfo.1.1.1.2).mp hs.1.2,
        (not_truthy_iff_none _ hwfo.1.2).mp hs.2⟩
    · rintro ⟨ho, hd, h1, h2, h3⟩
      exact ⟨⟨ho, decide_eq_true hd⟩, by simp [h1, h2, h3, truthyStr]⟩
  · intro f o h
    simp only [applyFilters] at h
    split_ifs at h with h1 h2 h3
    · exact List.mem_of_mem_filter (List.mem_of_mem_filter h)
    · exact List.mem_of_mem_filter (List.mem_of_mem_filter h)
    · exact List.mem_of_mem_filter (List.mem_of_mem_filter h)
    · exact List.mem_of_mem_filter h

/-- Sample order whose final stage is approved, for evaluating the
filter characterisation. -/
def sampleApprovedOrder : Order :=
  ⟨"o1", "ORD-001", "https://sheet.example", 1000,
   none, none, none, none, some "approved", none⟩

/-- Witness: the filter characterisation evaluated on a one-element
fetched list, with the well-formedness hypothesis discharged by
computation. -/
theorem orders_filtering_check :
    wfOrders [sampleApprovedOrder] = true ∧
    (sampleApprovedOrder ∈ applyFilters 1000 30 "approved" [sampleApprovedOrder] ↔
      sampleApprovedOrder ∈ [sampleApprovedOrder] ∧
      (1000 : Int) - ((30 : Nat) : Int) * msPerDay ≤ sampleApprovedOrder.created_at ∧
      sampleApprovedOrder.approved_pattern_status = some "approved") :=
  ⟨by decide,
   (orders_filtering 1000 30 [sampleApprovedOrder] (by decide)).2.1 sampleApprovedOrder⟩

/- ### OrderDetail: stage header badges -/

/-- The three pipeline stages of an order. -/
inductive Stage where
  | initial
  | second
  | approved
deriving DecidableEq, Repr

/-- The status field the card of a stage reads. -/
def stageStatus : Stage → Order → Option String
  | .initial, o => o.initial_pattern_status
  | .second, o => o.second_pattern_status
  | .approved, o => o.approved_pattern_status

/-- The date field the card of a stage reads. -/
def stageDate : Stage → Order → Option String
  | .initial, o => o.initial_pattern_date
  | .second, o => o.second_pattern_date
  | .approved, o => o.approved_pattern_date

/-- Visual variant of a Badge component. -/
inductive BadgeVariant where
  | default
  | destructive
  | secondary
deriving DecidableEq, Repr

/-- Badges shown in the card header of one stage: the optional date
badge content and the optional status badge (variant and text). -/
structure StageHeader where
  dateBadge : Option String
  statusBadge : Option (BadgeVariant × String)
deriving DecidableEq, Repr

/-- Card header of a stage in OrderDetail: the date badge is rendered
when the date field is truthy, the status badge when the status field
is truthy, with the `default` variant exactly for an approved status
and `destructive` otherwise. -/
def stageHeader (o : Order) (s : Stage) : StageHeader :=
  let dt := stageDate s o
  let st := stageStatus s o
  { dateBadge := if truthyStr dt then dt else none
    statusBadge :=
      if truthyStr st then
        some (if st = some "approved" then BadgeVariant.default
              else BadgeVariant.destructive,
              st.getD "")
      else none }

/-- Projection of an order to the two fields one stage reads. -/
theorem stageHeader_eq_of_fields (s : Stage) (o p : Order)
    (hst : stageStatus s o = stageStatus s p)
    (hdt : stageDate s o = stageDate s p) :
    stageHeader o s = stageHeader p s := by
  simp [stageHeader, hst, hdt]

/-- C6: for a well-formed order, each stage shows its status badge
exactly when its own status field is present and its date badge
exactly when its own date field is present, and the header of a stage
is a function of that stage status and date fields alone. -/
theorem stage_badges (o : Order) (s : Stage) (hwf : wfOrder o = true) :
    ((stageHeader o s).statusBadge.isSome = (stageStatus s o).isSome) ∧
    ((stageHeader o s).dateBadge.isSome = (stageDate s o).isSome) ∧
    (∀ p : Order, stageStatus s p = stageStatus s o →
      stageDate s p = stageDate s o → stageHeader p s = stageHeader o s) := by
  simp only [wfOrder, Bool.and_eq_true] at hwf
  have hst : wfField (stageStatus s o) = true := by
    cases s
    · exact hwf.1.1.1.1.1
    · exact hwf.1.1.1.2
    · exact hwf.1.2
  have hdt : wfField (stageDate s o) = true := by
    cases s
    · exact hwf.1.1.1.1.2
    · exact hwf.1.1.2
    · exact hwf.2
  refine ⟨?_, ?_, ?_⟩
  · rw [stageHeader]
    simp only [truthyStr_eq_isSome_of_wf _ hst]
    cases stageStatus s o <;> simp
  · rw [stageHeader]
    simp only [truthyStr_eq_isSome_of_wf _ hdt]
    cases stageDate s o <;> simp
  · intro p h1 h2
    exact stageHeader_eq_of_fields s p o h1 h2

/-- Witness: badge presence evaluated on the sample order at the
approved stage, with well-formedness discharged by computation. -/
theorem stage_badges_check :
    wfOrder sampleApprovedOrder = true ∧
    (stageHeader sampleApprovedOrder Stage.approved).statusBadge.isSome =
      (stageStatus Stage.approved sampleApprovedOrder).isSome :=
  ⟨by decide, (stage_badges sampleApprovedOrder Stage.approved (by decide)).1⟩

/- ### OrderDetail: mount effect and chat polling -/

/-- The two asynchronous calls the OrderDetail effect can issue. -/
inductive ViewCall where
  | fetchOrderData
  | fetchChats
deriving DecidableEq, Repr

/-- A repeating timer as registered by setInterval: an identifier, a
period in milliseconds and the call it repeats. -/
structure Timer where
  id : Nat
  delayMs : Nat
  call : ViewCall
deriving DecidableEq, Repr

/-- Runtime state the OrderDetail effect touches: the registered
interval timers and the requests currently in flight. -/
structure ViewState where
  timers : List Timer
  inFlight : List ViewCall
deriving DecidableEq, Repr

/-- The body of the OrderDetail useEffect: call fetchOrderData once
and register a 3000 ms interval running fetchChats; `fresh` is the
identifier setInterval returns. -/
def orderDetailMount (fresh : Nat) (s : ViewState) : ViewState :=
  { timers := s.timers ++ [⟨fresh, 3000, ViewCall.fetchChats⟩]
    inFlight := ViewCall.fetchOrderData :: s.inFlight }

/-- The cleanup returned by the effect: clearInterval on the saved
identifier, and nothing else. -/
def orderDetailCleanup (intervalId : Nat) (s : ViewState) : ViewState :=
  { s with timers := s.timers.filter (fun t => t.id ≠ intervalId) }

/-- Firing a timer starts its call, unconditionally: no deduplication
against calls already in flight. -/
def fireTimer (t : Timer) (s : ViewState) : ViewState :=
  { s with inFlight := t.call :: s.inFlight }

/-- A timer fires at the positive multiples of its period. -/
def timerFiresAt (t : Timer) (timeMs : Nat) : Bool :=
  decide (0 < timeMs) && decide (timeMs % t.delayMs = 0)

/-- C5: the mount effect of the order view registers exactly one
interval, the 3000 ms chat poll, besides its single immediate data
fetch; the poll fires exactly at every 3 seconds and each firing
starts a chat fetch even when one is already in flight; the cleanup
removes exactly that interval and leaves in-flight requests untouched
(no cancellation). -/
theorem chat_poll (s : ViewState) (fresh : Nat)
    (hfresh : s.timers.all (fun t => t.id ≠ fresh) = true) :
    ((orderDetailMount fresh s).timers.filter (fun t => t.id = fresh) =
      [⟨fresh, 3000, ViewCall.fetchChats⟩]) ∧
    ((orderDetailMount fresh s).inFlight = ViewCall.fetchOrderData :: s.inFlight) ∧
    (∀ timeMs : Nat,
      timerFiresAt ⟨fresh, 3000, ViewCall.fetchChats⟩ timeMs = true ↔
      0 < timeMs ∧ timeMs % 3000 = 0) ∧
    (∀ st : ViewState,
      (fireTimer ⟨fresh, 3000, ViewCall.fetchChats⟩ st).inFlight =
        ViewCall.fetchChats :: st.inFlight ∧
      (fireTimer ⟨fresh, 3000, ViewCall.fetchChats⟩ st).timers = st.timers) ∧
    ((orderDetailCleanup fresh (orderDetailMount fresh s)).timers = s.timers ∧
     (orderDetailCleanup fresh (orderDetailMount fresh s)).inFlight =
       (orderDetailMount fresh s).inFlight) := by
  have hmem : ∀ t ∈ s.timers, (t.id ≠ fresh) = True := by
    intro t ht
    have := List.all_eq_true.mp hfresh t ht
    simpa using this
  refine ⟨?_, rfl, ?_, ?_, ?_, rfl⟩
  · simp only [orderDetailMount, List.filter_append]
    have h1 : s.timers.filter (fun t => t.id = fresh) = [] := by
      rw [List.filter_eq_nil_iff]
      intro t ht
      have := List.all_eq_true.mp hfresh t ht
      simpa using this
    rw [h1]
    simp
  · intro timeMs
    simp [timerFiresAt]
  · intro st
    exact ⟨rfl, rfl⟩
  · simp only [orderDetailCleanup, orderDetailMount, List.filter_append]
    have h1 : s.timers.filter (fun t => t.id ≠ fresh) = s.timers := by
      rw [List.filter_eq_self]
      intro t ht
      have := List.all_eq_true.mp hfresh t ht
      simpa using this
    rw [h1]
    simp

/-- Witness: the poll model evaluated from an empty runtime state with
interval identifier 1. -/
theorem chat_poll_check :
    ([] : List Timer).all (fun t => t.id ≠ 1) = true ∧
    (orderDetailCleanup 1 (orderDetailMount 1 ⟨[], []⟩)).timers = ([] : List Timer) :=
  ⟨by decide, (chat_poll ⟨[], []⟩ 1 (by decide)).2.2.2.2.1⟩

/- ### Dashboard.jsx: identifier scope of the empty-orders card -/

/-- Every name Dashboard.jsx imports (its import lines). -/
def dashboardImportedNames : List String :=
  ["React", "useState", "useEffect", "useContext", "useNavigate",
   "AuthContext", "API", "axios",
   "Button", "Input", "Label",
   "Card", "CardContent", "CardHeader", "CardTitle",
   "Dialog", "DialogContent", "DialogHeader", "DialogTitle", "DialogTrigger",
   "Badge", "toast",
   "Plus", "LogOut", "Settings", "FileText", "Calendar"]

/-- Every name Dashboard.jsx binds itself (component, hooks results,
state pairs and helper functions). -/
def dashboardLocalNames : List String :=
  ["Dashboard", "navigate", "user", "logout",
   "orders", "setOrders", "loading", "setLoading",
   "dialogOpen", "setDialogOpen", "formData", "setFormData",
   "fetchOrders", "createOrder",
   "getRoleBadgeColor", "getRoleLabel", "canCreateOrder"]

/-- The identifier scope of the Dashboard component body. -/
def dashboardScope : List String :=
  dashboardImportedNames ++ dashboardLocalNames

/-- canCreateOrder of Dashboard.jsx. -/
def canCreateOrder (u : Option User) : Bool :=
  userRole u = some "admin" || userRole u = some "order_uploader"

/-- Capitalised JSX component identifiers referenced by the
pending-approval branch of the empty-orders card. -/
def pendingApprovalBranchRefs : List String :=
  ["Shield"]

/-- Capitalised JSX component identifiers referenced by the
no-orders-yet branch of the empty-orders card. -/
def noOrdersBranchRefs (canCreate : Bool) : List String :=
  ["FileText"] ++ (if canCreate then ["Button", "Plus"] else [])

/-- First referenced identifier that the Dashboard scope does not
bind, if any. -/
def firstUnbound (refs : List String) : Option String :=
  refs.find? (fun r => !dashboardScope.contains r)

/-- Rendering the empty-orders card: the branch is chosen by
`!user?.is_approved && user?.role !== admin`, its component
references are resolved in scope, and an unresolved reference raises a
ReferenceError instead of producing output. -/
def renderEmptyOrdersCard (u : Option User) : Except String Unit :=
  let refs :=
    if !userIsApproved u && !(userRole u = some "admin") then
      pendingApprovalBranchRefs
    else
      noOrdersBranchRefs (canCreateOrder u)
  match firstUnbound ("Card" :: refs) with
  | some n => Except.error ("ReferenceError: " ++ n ++ " is not defined")
  | none => Except.ok ()

/-- C8: Shield is bound nowhere in Dashboard.jsx, yet the
pending-approval branch of the empty-orders card references it, so for
every unapproved non-admin user with an empty order list the render
fails with a ReferenceError rather than completing. -/
theorem shield_unbound (u : Option User)
    (happ : userIsApproved u = false)
    (hadm : userRole u ≠ some "admin") :
    dashboardScope.contains "Shield" = false ∧
    renderEmptyOrdersCard u =
      Except.error "ReferenceError: Shield is not defined" := by
  constructor
  · decide
  · have hcond : (!userIsApproved u && !(userRole u = some "admin")) = true := by
      simp [happ, hadm]
    simp only [renderEmptyOrdersCard, hcond, if_true]
    rfl

/-- Witness: the broken branch reached by a concrete unapproved
general user. -/
theorem shield_unbound_check :
    userIsApproved (some ⟨"u2", "P User", "general_user", false⟩) = false ∧
    renderEmptyOrdersCard (some ⟨"u2", "P User", "general_user", false⟩) =
      Except.error "ReferenceError: Shield is not defined" :=
  ⟨rfl,
   (shield_unbound (some ⟨"u2", "P User", "general_user", false⟩) rfl
      (by decide)).2⟩

/- ### Error handling of the API calls -/

/-- The error object axios hands a catch block: the optional HTTP
status of error.response and the optional error.response.data.detail
string. -/
structure ApiError where
  status : Option Nat
  detail : Option String
deriving DecidableEq, Repr

/-- Observable steps a catch (or success) path performs. -/
inductive Effect where
  | toastError (msg : String)
  | toastSuccess (msg : String)
  | setOrdersEmpty
  | refetch (callName : String)
  | navigateHome
deriving DecidableEq, Repr

/-- Every catch block attached to an API call in the sources. -/
inductive ApiHandler where
  | dashboardFetchOrders
  | dashboardCreateOrder
  | ordersFetchOrders
  | ordersCreateOrder
  | orderDetailFetchOrderData
  | orderDetailFetchChats
  | orderDetailFileUpload
  | orderDetailDeletePattern
  | orderDetailDownload
  | orderDetailApproval
  | orderDetailSendMessage
  | orderDetailDeleteOrder
  | adminFetchUsers
  | adminUpdateRole
  | adminApproveUser
  | newDashboardFetchMetrics
  | loginSubmit
deriving DecidableEq, Repr

/-- What each catch block does with the error it receives, read off
the sources.  The two fetch-orders handlers special-case HTTP 403 by
silently clearing the list; the chat poll swallows every error; every
other handler raises one error toast, preferring the detail string of
the response when present. -/
def catchEffects : ApiHandler → ApiError → List Effect
  | .dashboardFetchOrders, e =>
      if e.status = some 403 then [.setOrdersEmpty]
      else [.toastError "Failed to fetch orders"]
  | .dashboardCreateOrder, e =>
      [.toastError (e.detail.getD "Failed to create order")]
  | .ordersFetchOrders, e =>
      if e.status = some 403 then [.setOrdersEmpty]
      else [.toastError "Failed to fetch orders"]
  | .ordersCreateOrder, e =>
      [.toastError (e.detail.getD "Failed to create order")]
  | .orderDetailFetchOrderData, _ =>
      [.toastError "Failed to fetch order data"]
  | .orderDetailFetchChats, _ => []
  | .orderDetailFileUpload, e =>
      [.toastError (e.detail.getD "Upload failed")]
  | .orderDetailDeletePattern, e =>
      [.toastError (e.detail.getD "Delete failed")]
  | .orderDetailDownload, _ =>
      [.toastError "Download failed"]
  | .orderDetailApproval, e =>
      [.toastError (e.detail.getD "Action failed")]
  | .orderDetailSendMessage, e =>
      [.toastError (e.detail.getD "Failed to send message")]
  | .orderDetailDeleteOrder, e =>
      [.toastError (e.detail.getD "Failed to delete order")]
  | .adminFetchUsers, _ =>
      [.toastError "Failed to fetch users"]
  | .adminUpdateRole, e =>
      [.toastError (e.detail.getD "Failed to update role")]
  | .adminApproveUser, e =>
      [.toastError (e.detail.getD "Failed to approve user")]
  | .newDashboardFetchMetrics, _ =>
      [.toastError "Failed to fetch metrics"]
  | .loginSubmit, e =>
      [.toastError (e.detail.getD "An error occurred")]

/-- What the success path of some handlers does afterwards, read off
the sources; the refetch steps live only here, never in a catch
block. -/
def successEffects : ApiHandler → List Effect
  | .dashboardCreateOrder =>
      [.toastSuccess "Order created successfully!", .refetch "fetchOrders"]
  | .ordersCreateOrder =>
      [.toastSuccess "Order created successfully!", .refetch "fetchOrders"]
  | .orderDetailFileUpload =>
      [.toastSuccess "Pattern uploaded successfully!", .refetch "fetchOrderData"]
  | .orderDetailDeletePattern =>
      [.toastSuccess "Pattern deleted successfully!", .refetch "fetchOrderData"]
  | .orderDetailApproval =>
      [.toastSuccess "approval toast", .refetch "fetchOrderData"]
  | .orderDetailSendMessage =>
      [.refetch "fetchChats"]
  | .orderDetailDeleteOrder =>
      [.toastSuccess "Order deleted successfully!", .navigateHome]
  | .adminUpdateRole =>
      [.toastSuccess "Role updated successfully!", .refetch "fetchUsers"]
  | .adminApproveUser =>
      [.toastSuccess "User approved successfully!", .refetch "fetchUsers"]
  | .orderDetailDownload =>
      [.toastSuccess "Download started"]
  | _ => []

/-- Whether a step is an error toast. -/
def isErrToast : Effect → Bool
  | .toastError _ => true
  | _ => false

/-- Whether a step re-issues a call. -/
def isRefetch : Effect → Bool
  | .refetch _ => true
  | _ => false

/-- A step list surfaces an error notification. -/
def surfacesError (l : List Effect) : Bool :=
  l.any isErrToast

/-- A step list re-issues some call. -/
def reissuesCall (l : List Effect) : Bool :=
  l.any isRefetch

/-- C2 is false as stated: the chat-poll catch block swallows a 500
error without any notification, and the orders fetch swallows a 403
the same way. -/
theorem error_toast_counterexample :
    surfacesError (catchEffects ApiHandler.orderDetailFetchChats
      ⟨some 500, none⟩) = false ∧
    surfacesError (catchEffects ApiHandler.dashboardFetchOrders
      ⟨some 403, none⟩) = false := by
  decide

/-- C2 amended: every catch block stops without re-issuing the call
(no retry, no backoff), and it surfaces the error as a transient toast
except in exactly two cases: the chat poll, which swallows every
error, and the two orders fetches on an HTTP 403 response, which
silently clear the list instead. -/
theorem error_handling (h : ApiHandler) (e : ApiError) :
    reissuesCall (catchEffects h e) = false ∧
    (surfacesError (catchEffects h e) = true ↔
      ¬(h = ApiHandler.orderDetailFetchChats ∨
        ((h = ApiHandler.dashboardFetchOrders ∨ h = ApiHandler.ordersFetchOrders) ∧
          e.status = some 403))) := by
  by_cases h403 : e.status = some 403 <;>
    cases h <;>
      simp [catchEffects, surfacesError, reissuesCall, isErrToast, isRefetch, h403]

/- ### NewDashboard.jsx: derived metric displays -/

/-- Metrics object returned by the dashboard endpoint (the fields the
derivations read). -/
structure Metrics where
  total_orders : Nat
  total_patterns : Nat
  approved_patterns : Nat
deriving DecidableEq, Repr

/-- Math.round: nearest integer, halves up. -/
def jsRound (q : ℚ) : ℤ :=
  ⌊q + 1 / 2⌋

/-- Division that records a zero denominator instead of producing a
JavaScript Infinity or NaN. -/
def jsDiv (a b : ℚ) : Option ℚ :=
  if b = 0 then none else some (a / b)

/-- toFixed(1): one decimal digit, via rounding of ten times the
value. -/
def toFixedOne (q : ℚ) : String :=
  let n : ℤ := jsRound (q * 10)
  toString (n / 10) ++ "." ++ toString (n % 10)

/-- The subtext of the Approved Patterns card: under the guard
`metrics.total_orders > 0` it shows the rounded percentage
approved_patterns / total_orders * 100, otherwise the fixed fallback
text; `none` marks the impossible division-by-zero outcome. -/
def approvalRateSubtext (m : Metrics) : Option String :=
  if 0 < m.total_orders then
    (jsDiv (m.approved_patterns : ℚ) (m.total_orders : ℚ)).map
      (fun q => toString (jsRound (q * 100)) ++ "% approval rate")
  else
    some "No orders yet"

/-- The Patterns per Order cell of the period summary: under the same
guard it shows total_patterns / total_orders to one decimal, otherwise
the literal string 0. -/
def patternsPerOrderText (m : Metrics) : Option String :=
  if 0 < m.total_orders then
    (jsDiv (m.total_patterns : ℚ) (m.total_orders : ℚ)).map toFixedOne
  else
    some "0"

/-- C9: neither derived metric ever reaches a division by zero: both
displays always produce a value, the zero-orders case yields exactly
the fixed fallback texts, and the positive case yields exactly the
guarded quotient displays. -/
theorem metrics_guarded (m : Metrics) :
    (approvalRateSubtext m).isSome = true ∧
    (patternsPerOrderText m).isSome = true ∧
    (m.total_orders = 0 →
      approvalRateSubtext m = some "No orders yet" ∧
      patternsPerOrderText m = some "0") ∧
    (0 < m.total_orders →
      approvalRateSubtext m =
        some (toString (jsRound ((m.approved_patterns : ℚ) / (m.total_orders : ℚ) * 100)) ++
          "% approval rate") ∧
      patternsPerOrderText m =
        some (toFixedOne ((m.total_patterns : ℚ) / (m.total_orders : ℚ)))) := by
  have hzero : (0 < m.total_orders) → ((m.total_orders : ℚ) ≠ 0) := by
    intro hpos
    exact_mod_cast Nat.pos_iff_ne_zero.mp hpos
  by_cases hp : 0 < m.total_orders
  · have hne := hzero hp
    refine ⟨?_, ?_, ?_, ?_⟩
    · simp [approvalRateSubtext, hp, jsDiv, hne]
    · simp [patternsPerOrderText, hp, jsDiv, hne]
    · intro h0
      omega
    · intro _
      constructor
      · simp [approvalRateSubtext, hp, jsDiv, hne]
      · simp [patternsPerOrderText, hp, jsDiv, hne]
  · have h0 : m.total_orders = 0 := by omega
    refine ⟨?_, ?_, ?_, ?_⟩
    · simp [approvalRateSubtext, hp]
    · simp [patternsPerOrderText, hp]
    · intro _
      exact ⟨by simp [approvalRateSubtext, hp], by simp [patternsPerOrderText, hp]⟩
    · intro hpos
      omega

/-- Witness: the metric displays evaluated at zero orders and at a
three-orders period, applying the guard theorem at both inputs. -/
theorem metrics_guarded_check :
    approvalRateSubtext ⟨0, 0, 0⟩ = some "No orders yet" ∧
    patternsPerOrderText ⟨2, 3, 1⟩ =
      some (toFixedOne ((3 : ℚ) / (2 : ℚ))) :=
  ⟨((metrics_guarded ⟨0, 0, 0⟩).2.2.1 rfl).1,
   by
     have h := ((metrics_guarded ⟨2, 3, 1⟩).2.2.2 (by decide)).2
     simpa using h⟩
